import Mathlib

/-!
Verification of the GRIB message-to-metadata conversion engine
(`iris.fileformats.grib._load_convert`).

The data model and operations below are a shallow embedding of the Python
source: stateful mutation of the metadata record becomes explicit state
passing through `Except TranslationError`, double-precision point arithmetic
is carried out over `ℚ`, and dictionary fields become structure fields.
Parts of the engine that the repository references but does not ship
(the GRIB2 module, the GRIB1 accuracy constant, `_is_circular`, and the
GRIB1 grid-definition-section dispatcher) are modelled from the design
document and marked as such in their doc comments.
-/

/-- The single structured failure kind of the engine
(`iris.exceptions.TranslationError`), carrying a human-readable message. -/
structure TranslationError where
  msg : String
deriving Repr, DecidableEq

/-- `ScanningMode` named tuple from `_common.py`. -/
structure ScanningMode where
  i_negative : Bool
  j_positive : Bool
  j_consecutive : Bool
  i_alternative : Bool
deriving Repr, DecidableEq

/-- `ProjectionCentre` named tuple from `_common.py`. -/
structure ProjectionCentre where
  south_pole_on_projection_plane : Bool
  bipolar_and_symmetric : Bool
deriving Repr, DecidableEq

/-- `ResolutionFlags` named tuple from `_edition1.py`. -/
structure ResolutionFlags where
  i_increments_given : Bool
  j_increments_given : Bool
  uv_resolved : Bool
deriving Repr, DecidableEq

/-- Static centre code table `_CENTRES` from `_common.py`
(reference Common Code Table C-1): a dictionary with a single entry. -/
def _CENTRES : List (String × String) :=
  [("ecmf", "European Centre for Medium Range Weather Forecasts")]

/-- `projection_centre` from `_common.py`: translate the projection centre
flag bitmask (GRIB2 Flag Table 3.5). -/
def projection_centre (projectionCentreFlag : Nat) : ProjectionCentre :=
  let south_pole_on_projection_plane := projectionCentreFlag &&& 0x80 != 0
  let bipolar_and_symmetric := projectionCentreFlag &&& 0x40 != 0
  ProjectionCentre.mk south_pole_on_projection_plane bipolar_and_symmetric

/-- `scanning_mode` from `_common.py`: translate the scanning mode bitmask
(GRIB2 Flag Table 3.4), raising `TranslationError` on the alternative row
scanning bit. -/
def scanning_mode (scanningMode : Nat) : Except TranslationError ScanningMode :=
  let i_negative := scanningMode &&& 0x80 != 0
  let j_positive := scanningMode &&& 0x40 != 0
  let j_consecutive := scanningMode &&& 0x20 != 0
  let i_alternative := scanningMode &&& 0x10 != 0
  if i_alternative then
    Except.error ⟨"Grid definition section 3 contains unsupported alternative row scanning mode"⟩
  else
    Except.ok (ScanningMode.mk i_negative j_positive j_consecutive i_alternative)

/-- `resolution_flags` from `_edition1.py`: the source computes the three
flag booleans but its body contains no return statement, so the Python
function returns `None`; the embedding returns `none` accordingly. -/
def resolution_flags (resolutionAndComponentFlags : Nat) : Option ResolutionFlags :=
  let inc_given := resolutionAndComponentFlags &&& 0x20 != 0
  let j_inc_given := resolutionAndComponentFlags &&& 0x10 != 0
  let uv_resolved := resolutionAndComponentFlags &&& 0x08 != 0
  none

/-- `iris.coord_systems.GeogCS`, as used by the builder: a spherical Earth
coordinate system identified by its radius. -/
structure GeogCS where
  semi_major_axis : ℚ
deriving Repr, DecidableEq

/-- `iris.coords.DimCoord`, as used by the builder: name, unit, monotonic
point values, coordinate-system reference and circularity flag (§3 of the
design document). Point arithmetic is embedded over `ℚ`. -/
structure DimCoord where
  points : List ℚ
  standard_name : String
  units : String
  coord_system : GeogCS
  circular : Bool
deriving Repr, DecidableEq

/-- `iris.fileformats.rules.ConversionMetadata`: the engine's sole output,
an ordered record with the fixed fields of §3, in the order `convert`
initialises them. Pass-through sequence fields are embedded as `List Unit`. -/
structure ConversionMetadata where
  factories : List Unit
  references : List Unit
  standard_name : Option String
  long_name : Option String
  units : Option String
  attributes : List (String × String)
  cell_methods : List Unit
  dim_coords_and_dims : List (DimCoord × Nat)
  aux_coords_and_dims : List (DimCoord × Nat)
deriving Repr, DecidableEq

/-- The GRIB1 grid definition section (message section 2): the fields read by
`grid_definition_template_0` and, per §6 of the design document, the
template/grid-type identifier consumed by the section dispatcher. -/
structure GridSection1 where
  dataRepresentationType : Nat
  PLPresent : Bool
  scanningMode : Nat
  Ni : Nat
  Nj : Nat
  iDirectionIncrement : Int
  jDirectionIncrement : Int
  longitudeOfFirstGridPoint : Int
  latitudeOfFirstGridPoint : Int
  resolutionAndComponentFlags : Nat
deriving Repr, DecidableEq

/-- Modelled from the spec: the GRIB2 grid definition section (message
section 3). The GRIB2 module (`_edition2.py`) is imported by the dispatcher
but is not in the source tree; §6 lists the same grid-definition fields plus
the template identifier, and §4.4 says GRIB2 derives its integer-to-degrees
scale from a message-supplied basic-angle/subdivision pair. `PLPresent`
stands for the optional quasi-regular-grid indicator of §6. -/
structure GridSection2 where
  gridDefinitionTemplateNumber : Nat
  PLPresent : Bool
  scanningMode : Nat
  Ni : Nat
  Nj : Nat
  basicAngle : Nat
  subdivisionsOfBasicAngle : Nat
  iDirectionIncrement : Int
  jDirectionIncrement : Int
  longitudeOfFirstGridPoint : Int
  latitudeOfFirstGridPoint : Int
deriving Repr, DecidableEq

/-- Message section 0: always carries the edition number. -/
structure Section0 where
  editionNumber : Nat
deriving Repr, DecidableEq

/-- Message section 1 (product definition): carries at least `centre` (§6). -/
structure Section1 where
  centre : String
deriving Repr, DecidableEq

/-- A parsed GRIB message (the design document Message): a table of section-keyed fields (§3). Sections 2
and 3 are the edition-dependent grid definition sections; `convert` reads
only the one matching the message's edition. -/
structure Message where
  section0 : Section0
  section1 : Section1
  section2 : GridSection1
  section3 : GridSection2
deriving Repr, DecidableEq

/-- Modelled from the spec: `_GRID_ACCURACY_IN_DEGREES_GRIB1` is referenced
by `grid_definition_template_0` but not defined in the source tree. §4.4
and §9 describe it as the fixed GRIB1 integer-to-degrees accuracy divisor;
GRIB1 encodes grid coordinates in millidegrees, so the factor is 1/1000
degree per unit. -/
def _GRID_ACCURACY_IN_DEGREES_GRIB1 : ℚ := 1/1000

/-- Modelled from the spec (§4.4 step 5): the fixed small absolute tolerance
of the circularity test ("documented constant, not derived"). -/
def _CIRCULAR_TOLERANCE : ℚ := 1/1000000

/-- `x` reduced modulo `m` into `[0, m)` (for `m > 0`): the "mod 360" of the
circularity formula, over `ℚ`. -/
def rmod (x m : ℚ) : ℚ := x - m * (⌊x / m⌋ : ℤ)

/-- Modelled from the spec: `_is_circular` is called by the grid builder but
not defined in the source tree. §4.4 step 5 / §8: the longitude axis is
circular iff stepping one more increment past the last point lands, within
the fixed tolerance, on the first point plus the modulus (360°), modulo the
modulus. Fewer than two points cannot wrap. -/
def _is_circular (points : List ℚ) (modulus : ℚ) : Bool :=
  match points with
  | [] => false
  | [_] => false
  | p0 :: p1 :: rest =>
    let step := p1 - p0
    let lastp := (p1 :: rest).getLastD 0
    let d := rmod (lastp + step - p0) modulus
    decide (d ≤ _CIRCULAR_TOLERANCE ∨ modulus - d ≤ _CIRCULAR_TOLERANCE)

/-- `grid_definition_template_0` from `_edition1.py`: the regular
latitude-longitude grid builder. In-place mutation of the metadata record
becomes explicit state passing through `Except`. -/
def grid_definition_template_0 (sec : GridSection1) (metadata : ConversionMetadata) :
    Except TranslationError ConversionMetadata :=
  -- Earth assumed spherical with radius of 6 371 229.0m
  let cs : GeogCS := ⟨6371229⟩
  -- Check for reduced grid.
  if sec.PLPresent then
    Except.error ⟨"Grid definition section 2 contains unsupported quasi-regular grid"⟩
  else
    match scanning_mode sec.scanningMode with
    | Except.error e => Except.error e
    | Except.ok scan =>
      -- Calculate longitude points.
      let x_inc : ℚ := sec.iDirectionIncrement * _GRID_ACCURACY_IN_DEGREES_GRIB1
      let x_offset : ℚ := sec.longitudeOfFirstGridPoint * _GRID_ACCURACY_IN_DEGREES_GRIB1
      let x_direction : ℚ := if scan.i_negative then -1 else 1
      let x_points := (List.range sec.Ni).map (fun k : ℕ => (k : ℚ) * x_inc * x_direction + x_offset)
      -- Determine whether the x-points (in degrees) are circular.
      let circular := _is_circular x_points 360
      -- Calculate latitude points.
      let y_inc : ℚ := sec.jDirectionIncrement * _GRID_ACCURACY_IN_DEGREES_GRIB1
      let y_offset : ℚ := sec.latitudeOfFirstGridPoint * _GRID_ACCURACY_IN_DEGREES_GRIB1
      let y_direction : ℚ := if scan.j_positive then 1 else -1
      let y_points := (List.range sec.Nj).map (fun k : ℕ => (k : ℚ) * y_inc * y_direction + y_offset)
      -- Create the lat/lon coordinates.
      let y_coord : DimCoord := ⟨y_points, "latitude", "degrees", cs, false⟩
      let x_coord : DimCoord := ⟨x_points, "longitude", "degrees", cs, circular⟩
      -- Determine the lat/lon dimensions.
      let y_dim : Nat := if scan.j_consecutive then 1 else 0
      let x_dim : Nat := if scan.j_consecutive then 0 else 1
      -- Add the lat/lon coordinates to the metadata dim coords.
      Except.ok { metadata with dim_coords_and_dims :=
          metadata.dim_coords_and_dims ++ [(y_coord, y_dim), (x_coord, x_dim)] }

/-- Modelled from the spec: `grid_definition_section_grib1` is called by
`grib1_convert` but not defined in the source tree (the source holds only a
dangling `grid_type_regular_ll` header). §4.5: the converter invokes the
matching grid builder based on the section's grid-type identifier and fails
with `TranslationError` naming an unsupported identifier. Grid type 0 is the
regular latitude-longitude template. -/
def grid_definition_section_grib1 (sec : GridSection1) (metadata : ConversionMetadata) :
    Except TranslationError ConversionMetadata :=
  if sec.dataRepresentationType == 0 then
    grid_definition_template_0 sec metadata
  else
    Except.error ⟨"Grid definition type " ++ toString sec.dataRepresentationType ++
      " is not supported"⟩

/-- `grib1_convert` from `_edition1.py`: reads the product definition section
to set the centre attribute via the code-table lookup (omitted when the code
is unknown), then processes the grid definition section. -/
def grib1_convert (field : Message) (metadata : ConversionMetadata) :
    Except TranslationError ConversionMetadata :=
  -- Section 1 - Product Definition Section (PDS)
  let metadata :=
    match _CENTRES.lookup field.section1.centre with
    | some centre => { metadata with attributes := metadata.attributes ++ [("centre", centre)] }
    | none => metadata
  -- Section 2 - Grid Definition Section (GDS)
  grid_definition_section_grib1 field.section2 metadata

/-- Modelled from the spec: the GRIB2 regular latitude-longitude builder
(`_edition2.py` is not in the source tree). §4.4: the same algorithm as the
GRIB1 builder, with the integer-to-degrees scale taken from the message's
basic-angle/subdivision pair instead of the fixed GRIB1 divisor. -/
def grid_definition_template_0_grib2 (sec : GridSection2) (metadata : ConversionMetadata) :
    Except TranslationError ConversionMetadata :=
  let cs : GeogCS := ⟨6371229⟩
  if sec.PLPresent then
    Except.error ⟨"Grid definition section 3 contains unsupported quasi-regular grid"⟩
  else
    match scanning_mode sec.scanningMode with
    | Except.error e => Except.error e
    | Except.ok scan =>
      let scale : ℚ := (sec.basicAngle : ℚ) / (sec.subdivisionsOfBasicAngle : ℚ)
      let x_inc : ℚ := sec.iDirectionIncrement * scale
      let x_offset : ℚ := sec.longitudeOfFirstGridPoint * scale
      let x_direction : ℚ := if scan.i_negative then -1 else 1
      let x_points := (List.range sec.Ni).map (fun k : ℕ => (k : ℚ) * x_inc * x_direction + x_offset)
      let circular := _is_circular x_points 360
      let y_inc : ℚ := sec.jDirectionIncrement * scale
      let y_offset : ℚ := sec.latitudeOfFirstGridPoint * scale
      let y_direction : ℚ := if scan.j_positive then 1 else -1
      let y_points := (List.range sec.Nj).map (fun k : ℕ => (k : ℚ) * y_inc * y_direction + y_offset)
      let y_coord : DimCoord := ⟨y_points, "latitude", "degrees", cs, false⟩
      let x_coord : DimCoord := ⟨x_points, "longitude", "degrees", cs, circular⟩
      let y_dim : Nat := if scan.j_consecutive then 1 else 0
      let x_dim : Nat := if scan.j_consecutive then 0 else 1
      Except.ok { metadata with dim_coords_and_dims :=
          metadata.dim_coords_and_dims ++ [(y_coord, y_dim), (x_coord, x_dim)] }

/-- Modelled from the spec: `grib2_convert` (`_edition2.py` is not in the
source tree). §4.5: structurally identical to `grib1_convert` — set the
centre attribute from the code table, then dispatch on the grid definition
template identifier, failing for unsupported templates. Template 0 is the
regular latitude-longitude grid. -/
def grib2_convert (field : Message) (metadata : ConversionMetadata) :
    Except TranslationError ConversionMetadata :=
  let metadata :=
    match _CENTRES.lookup field.section1.centre with
    | some centre => { metadata with attributes := metadata.attributes ++ [("centre", centre)] }
    | none => metadata
  if field.section3.gridDefinitionTemplateNumber == 0 then
    grid_definition_template_0_grib2 field.section3 metadata
  else
    Except.error ⟨"Grid definition template " ++
      toString field.section3.gridDefinitionTemplateNumber ++ " is not supported"⟩

/-- The freshly initialised cube metadata built at the top of `convert`:
every field present, empty containers / `none` as the sentinel (§3). -/
def initial_metadata : ConversionMetadata :=
  ⟨[], [], none, none, none, [], [], [], []⟩

/-- `convert` from `__init__.py`: translate the GRIB message into cube
metadata, dispatching on the edition number and raising `TranslationError`
for unsupported editions. -/
def convert (field : Message) : Except TranslationError ConversionMetadata :=
  let editionNumber := field.section0.editionNumber
  if editionNumber == 1 then
    grib1_convert field initial_metadata
  else if editionNumber == 2 then
    grib2_convert field initial_metadata
  else
    Except.error ⟨"GRIB edition " ++ toString editionNumber ++ " is not supported"⟩

/-! ### Named components of the builder results

The following definitions name the values that `grid_definition_template_0`
and its GRIB2 counterpart compute internally, so that lemmas can state the
success case explicitly. Each is read off the corresponding local binding of
the builder. -/

/-- The longitude point array computed by `grid_definition_template_0`. -/
def x_points_grib1 (sec : GridSection1) : List ℚ :=
  (List.range sec.Ni).map (fun k : ℕ =>
    (k : ℚ) * ((sec.iDirectionIncrement : ℚ) * _GRID_ACCURACY_IN_DEGREES_GRIB1) *
      (if sec.scanningMode &&& 0x80 != 0 then (-1 : ℚ) else 1) +
    (sec.longitudeOfFirstGridPoint : ℚ) * _GRID_ACCURACY_IN_DEGREES_GRIB1)

/-- The latitude point array computed by `grid_definition_template_0`. -/
def y_points_grib1 (sec : GridSection1) : List ℚ :=
  (List.range sec.Nj).map (fun k : ℕ =>
    (k : ℚ) * ((sec.jDirectionIncrement : ℚ) * _GRID_ACCURACY_IN_DEGREES_GRIB1) *
      (if sec.scanningMode &&& 0x40 != 0 then (1 : ℚ) else -1) +
    (sec.latitudeOfFirstGridPoint : ℚ) * _GRID_ACCURACY_IN_DEGREES_GRIB1)

/-- The latitude coordinate built by `grid_definition_template_0`. -/
def y_coord_grib1 (sec : GridSection1) : DimCoord :=
  ⟨y_points_grib1 sec, "latitude", "degrees", ⟨6371229⟩, false⟩

/-- The longitude coordinate built by `grid_definition_template_0`. -/
def x_coord_grib1 (sec : GridSection1) : DimCoord :=
  ⟨x_points_grib1 sec, "longitude", "degrees", ⟨6371229⟩,
    _is_circular (x_points_grib1 sec) 360⟩

/-- The dimension index `grid_definition_template_0` assigns to latitude. -/
def y_dim_grib1 (sec : GridSection1) : Nat :=
  if sec.scanningMode &&& 0x20 != 0 then 1 else 0

/-- The dimension index `grid_definition_template_0` assigns to longitude. -/
def x_dim_grib1 (sec : GridSection1) : Nat :=
  if sec.scanningMode &&& 0x20 != 0 then 0 else 1

/-- The message-supplied integer-to-degrees scale of the GRIB2 builder. -/
def scale_grib2 (sec : GridSection2) : ℚ :=
  (sec.basicAngle : ℚ) / (sec.subdivisionsOfBasicAngle : ℚ)

/-- The longitude point array computed by the GRIB2 builder. -/
def x_points_grib2 (sec : GridSection2) : List ℚ :=
  (List.range sec.Ni).map (fun k : ℕ =>
    (k : ℚ) * ((sec.iDirectionIncrement : ℚ) * scale_grib2 sec) *
      (if sec.scanningMode &&& 0x80 != 0 then (-1 : ℚ) else 1) +
    (sec.longitudeOfFirstGridPoint : ℚ) * scale_grib2 sec)

/-- The latitude point array computed by the GRIB2 builder. -/
def y_points_grib2 (sec : GridSection2) : List ℚ :=
  (List.range sec.Nj).map (fun k : ℕ =>
    (k : ℚ) * ((sec.jDirectionIncrement : ℚ) * scale_grib2 sec) *
      (if sec.scanningMode &&& 0x40 != 0 then (1 : ℚ) else -1) +
    (sec.latitudeOfFirstGridPoint : ℚ) * scale_grib2 sec)

/-- The latitude coordinate built by the GRIB2 builder. -/
def y_coord_grib2 (sec : GridSection2) : DimCoord :=
  ⟨y_points_grib2 sec, "latitude", "degrees", ⟨6371229⟩, false⟩

/-- The longitude coordinate built by the GRIB2 builder. -/
def x_coord_grib2 (sec : GridSection2) : DimCoord :=
  ⟨x_points_grib2 sec, "longitude", "degrees", ⟨6371229⟩,
    _is_circular (x_points_grib2 sec) 360⟩

/-- The dimension index the GRIB2 builder assigns to latitude. -/
def y_dim_grib2 (sec : GridSection2) : Nat :=
  if sec.scanningMode &&& 0x20 != 0 then 1 else 0

/-- The dimension index the GRIB2 builder assigns to longitude. -/
def x_dim_grib2 (sec : GridSection2) : Nat :=
  if sec.scanningMode &&& 0x20 != 0 then 0 else 1

/-- The metadata record produced by a successful run of the GRIB1 regular
latitude-longitude builder on metadata `md`. -/
def gdt0_result (sec : GridSection1) (md : ConversionMetadata) : ConversionMetadata :=
  { md with dim_coords_and_dims := md.dim_coords_and_dims ++
      [(y_coord_grib1 sec, y_dim_grib1 sec), (x_coord_grib1 sec, x_dim_grib1 sec)] }

/-- The metadata record produced by a successful run of the GRIB2 regular
latitude-longitude builder on metadata `md`. -/
def gdt0_grib2_result (sec : GridSection2) (md : ConversionMetadata) : ConversionMetadata :=
  { md with dim_coords_and_dims := md.dim_coords_and_dims ++
      [(y_coord_grib2 sec, y_dim_grib2 sec), (x_coord_grib2 sec, x_dim_grib2 sec)] }

/-- The product-definition step of the edition converters: set the `centre`
attribute from the static code table when the code is known, leave the
record unchanged otherwise. -/
def with_centre (md : ConversionMetadata) (code : String) : ConversionMetadata :=
  match _CENTRES.lookup code with
  | some centre => { md with attributes := md.attributes ++ [("centre", centre)] }
  | none => md

/-! ### Concrete sample inputs used by the witness theorems -/

/-- A regular latitude-longitude GRIB1 grid section: 2 × 3 grid, 1°/2°
increments (in millidegrees), default scanning order. -/
def sec_basic : GridSection1 :=
  { dataRepresentationType := 0, PLPresent := false, scanningMode := 0,
    Ni := 2, Nj := 3, iDirectionIncrement := 1000, jDirectionIncrement := 2000,
    longitudeOfFirstGridPoint := 10000, latitudeOfFirstGridPoint := -5000,
    resolutionAndComponentFlags := 0 }

/-- The design document example for `i_negative`: increment 1° (1000
millidegrees), offset 0, `Ni = 4`, scanning mode with only bit 0x80 set. -/
def sec_ineg : GridSection1 :=
  { dataRepresentationType := 0, PLPresent := false, scanningMode := 0x80,
    Ni := 4, Nj := 2, iDirectionIncrement := 1000, jDirectionIncrement := 1000,
    longitudeOfFirstGridPoint := 0, latitudeOfFirstGridPoint := 0,
    resolutionAndComponentFlags := 0 }

/-- A section with the `j_consecutive` bit (0x20) set. -/
def sec_jcons : GridSection1 :=
  { dataRepresentationType := 0, PLPresent := false, scanningMode := 0x20,
    Ni := 3, Nj := 2, iDirectionIncrement := 1000, jDirectionIncrement := 1000,
    longitudeOfFirstGridPoint := 0, latitudeOfFirstGridPoint := 0,
    resolutionAndComponentFlags := 0 }

/-- A section with bits 0x80, 0x40 and 0x20 all set. -/
def sec_allbits : GridSection1 :=
  { dataRepresentationType := 0, PLPresent := false, scanningMode := 0xE0,
    Ni := 2, Nj := 2, iDirectionIncrement := 1000, jDirectionIncrement := 1000,
    longitudeOfFirstGridPoint := 0, latitudeOfFirstGridPoint := 0,
    resolutionAndComponentFlags := 0 }

/-- The design document circularity example: `Ni = 360`, 1° increments
starting at 0°. -/
def sec_360 : GridSection1 :=
  { dataRepresentationType := 0, PLPresent := false, scanningMode := 0,
    Ni := 360, Nj := 2, iDirectionIncrement := 1000, jDirectionIncrement := 1000,
    longitudeOfFirstGridPoint := 0, latitudeOfFirstGridPoint := 0,
    resolutionAndComponentFlags := 0 }

/-- A section with the quasi-regular indicator set. -/
def sec_quasi : GridSection1 :=
  { dataRepresentationType := 0, PLPresent := true, scanningMode := 0,
    Ni := 2, Nj := 2, iDirectionIncrement := 1000, jDirectionIncrement := 1000,
    longitudeOfFirstGridPoint := 0, latitudeOfFirstGridPoint := 0,
    resolutionAndComponentFlags := 0 }

/-- A GRIB2 grid section matching `sec_basic`, with a 1/1000000 basic angle. -/
def sec3_basic : GridSection2 :=
  { gridDefinitionTemplateNumber := 0, PLPresent := false, scanningMode := 0,
    Ni := 2, Nj := 3, basicAngle := 1, subdivisionsOfBasicAngle := 1000000,
    iDirectionIncrement := 1000000, jDirectionIncrement := 2000000,
    longitudeOfFirstGridPoint := 10000000, latitudeOfFirstGridPoint := -5000000 }

/-- An edition-3 message (unsupported edition). -/
def msg_edition3 : Message :=
  { section0 := ⟨3⟩, section1 := ⟨"ecmf"⟩, section2 := sec_basic, section3 := sec3_basic }

/-- A valid edition-1 regular latitude-longitude message from a known centre. -/
def msg_grib1 : Message :=
  { section0 := ⟨1⟩, section1 := ⟨"ecmf"⟩, section2 := sec_basic, section3 := sec3_basic }

/-- An edition-1 message from an unknown centre. -/
def msg_unknown_centre : Message :=
  { section0 := ⟨1⟩, section1 := ⟨"kwbc"⟩, section2 := sec_basic, section3 := sec3_basic }

/-- An edition-1 message whose grid section has the quasi-regular flag set. -/
def msg_quasi : Message :=
  { section0 := ⟨1⟩, section1 := ⟨"ecmf"⟩, section2 := sec_quasi, section3 := sec3_basic }

/-- The circularity criterion of §4.4 step 5, stated on the endpoints:
adding one more `step` past the last point lands, within the fixed
tolerance, on the first point modulo 360°. -/
def lands_on_start (first lastp step : ℚ) : Prop :=
  rmod (lastp + step - first) 360 ≤ _CIRCULAR_TOLERANCE ∨
  360 - rmod (lastp + step - first) 360 ≤ _CIRCULAR_TOLERANCE

/-! ### Characterisation lemmas -/

/-- With the alternative-scanning bit clear, `scanning_mode` succeeds and
decodes the three documented bits, with `i_alternative = false`. -/
theorem scanning_mode_ok (flags : Nat) (h : flags &&& 0x10 = 0) :
    scanning_mode flags =
      Except.ok ⟨flags &&& 0x80 != 0, flags &&& 0x40 != 0, flags &&& 0x20 != 0, false⟩ := by
  simp [scanning_mode, h]

/-- With the alternative-scanning bit set, `scanning_mode` fails. -/
theorem scanning_mode_alt (flags : Nat) (h : flags &&& 0x10 ≠ 0) :
    scanning_mode flags = Except.error
      ⟨"Grid definition section 3 contains unsupported alternative row scanning mode"⟩ := by
  have hb : (flags &&& 0x10 != 0) = true := by simpa using h
  simp [scanning_mode, hb]

/-- Success case of the GRIB1 regular latitude-longitude builder. -/
theorem gdt0_ok (sec : GridSection1) (md : ConversionMetadata)
    (hq : sec.PLPresent = false) (ha : sec.scanningMode &&& 0x10 = 0) :
    grid_definition_template_0 sec md = Except.ok (gdt0_result sec md) := by
  rw [grid_definition_template_0, scanning_mode_ok _ ha]
  simp [hq, gdt0_result, x_coord_grib1, y_coord_grib1, x_points_grib1, y_points_grib1,
    x_dim_grib1, y_dim_grib1]

/-- Quasi-regular case of the GRIB1 builder. -/
theorem gdt0_quasi (sec : GridSection1) (md : ConversionMetadata)
    (hq : sec.PLPresent = true) :
    grid_definition_template_0 sec md = Except.error
      ⟨"Grid definition section 2 contains unsupported quasi-regular grid"⟩ := by
  simp [grid_definition_template_0, hq]

/-- Alternative-scanning case of the GRIB1 builder. -/
theorem gdt0_alt (sec : GridSection1) (md : ConversionMetadata)
    (hq : sec.PLPresent = false) (ha : sec.scanningMode &&& 0x10 ≠ 0) :
    grid_definition_template_0 sec md = Except.error
      ⟨"Grid definition section 3 contains unsupported alternative row scanning mode"⟩ := by
  rw [grid_definition_template_0, scanning_mode_alt _ ha]
  simp [hq]

/-- Inversion: a successful run of the GRIB1 builder forces the section
flags and determines the output record. -/
theorem gdt0_inv (sec : GridSection1) (md md' : ConversionMetadata)
    (h : grid_definition_template_0 sec md = Except.ok md') :
    sec.PLPresent = false ∧ sec.scanningMode &&& 0x10 = 0 ∧ md' = gdt0_result sec md := by
  by_cases hq : sec.PLPresent = true
  · rw [gdt0_quasi sec md hq] at h; exact absurd h (by simp)
  · have hq' : sec.PLPresent = false := by simpa using hq
    by_cases ha : sec.scanningMode &&& 0x10 = 0
    · rw [gdt0_ok sec md hq' ha] at h
      exact ⟨hq', ha, (Except.ok.inj h).symm⟩
    · rw [gdt0_alt sec md hq' ha] at h; exact absurd h (by simp)

/-- Success case of the GRIB2 regular latitude-longitude builder. -/
theorem gdt0_grib2_ok (sec : GridSection2) (md : ConversionMetadata)
    (hq : sec.PLPresent = false) (ha : sec.scanningMode &&& 0x10 = 0) :
    grid_definition_template_0_grib2 sec md = Except.ok (gdt0_grib2_result sec md) := by
  rw [grid_definition_template_0_grib2, scanning_mode_ok _ ha]
  simp [hq, gdt0_grib2_result, x_coord_grib2, y_coord_grib2, x_points_grib2, y_points_grib2,
    x_dim_grib2, y_dim_grib2, scale_grib2]

/-- Quasi-regular case of the GRIB2 builder. -/
theorem gdt0_grib2_quasi (sec : GridSection2) (md : ConversionMetadata)
    (hq : sec.PLPresent = true) :
    grid_definition_template_0_grib2 sec md = Except.error
      ⟨"Grid definition section 3 contains unsupported quasi-regular grid"⟩ := by
  simp [grid_definition_template_0_grib2, hq]

/-- Alternative-scanning case of the GRIB2 builder. -/
theorem gdt0_grib2_alt (sec : GridSection2) (md : ConversionMetadata)
    (hq : sec.PLPresent = false) (ha : sec.scanningMode &&& 0x10 ≠ 0) :
    grid_definition_template_0_grib2 sec md = Except.error
      ⟨"Grid definition section 3 contains unsupported alternative row scanning mode"⟩ := by
  rw [grid_definition_template_0_grib2, scanning_mode_alt _ ha]
  simp [hq]

/-- Inversion for the GRIB2 builder. -/
theorem gdt0_grib2_inv (sec : GridSection2) (md md' : ConversionMetadata)
    (h : grid_definition_template_0_grib2 sec md = Except.ok md') :
    sec.PLPresent = false ∧ sec.scanningMode &&& 0x10 = 0 ∧ md' = gdt0_grib2_result sec md := by
  by_cases hq : sec.PLPresent = true
  · rw [gdt0_grib2_quasi sec md hq] at h; exact absurd h (by simp)
  · have hq' : sec.PLPresent = false := by simpa using hq
    by_cases ha : sec.scanningMode &&& 0x10 = 0
    · rw [gdt0_grib2_ok sec md hq' ha] at h
      exact ⟨hq', ha, (Except.ok.inj h).symm⟩
    · rw [gdt0_grib2_alt sec md hq' ha] at h; exact absurd h (by simp)

/-- `grib1_convert` is the centre lookup followed by the grid section step. -/
theorem grib1_convert_eq (field : Message) (md : ConversionMetadata) :
    grib1_convert field md =
      grid_definition_section_grib1 field.section2 (with_centre md field.section1.centre) := by
  rw [grib1_convert, with_centre]

/-- The GRIB1 section dispatcher forwards grid type 0 to the builder. -/
theorem gds_grib1_type0 (sec : GridSection1) (md : ConversionMetadata)
    (h : sec.dataRepresentationType = 0) :
    grid_definition_section_grib1 sec md = grid_definition_template_0 sec md := by
  simp [grid_definition_section_grib1, h]

/-- The GRIB1 section dispatcher rejects any other grid type. -/
theorem gds_grib1_other (sec : GridSection1) (md : ConversionMetadata)
    (h : sec.dataRepresentationType ≠ 0) :
    grid_definition_section_grib1 sec md = Except.error
      ⟨"Grid definition type " ++ toString sec.dataRepresentationType ++ " is not supported"⟩ := by
  simp [grid_definition_section_grib1, h]

/-- `convert` on an edition-1 message is `grib1_convert` on fresh metadata. -/
theorem convert_e1 (field : Message) (h : field.section0.editionNumber = 1) :
    convert field = grib1_convert field initial_metadata := by
  simp [convert, h]

/-- `convert` on an edition-2 message is `grib2_convert` on fresh metadata. -/
theorem convert_e2 (field : Message) (h : field.section0.editionNumber = 2) :
    convert field = grib2_convert field initial_metadata := by
  simp [convert, h]

/-- `convert` on any other edition fails, naming the edition. -/
theorem convert_other (field : Message)
    (h1 : field.section0.editionNumber ≠ 1) (h2 : field.section0.editionNumber ≠ 2) :
    convert field = Except.error
      ⟨"GRIB edition " ++ toString field.section0.editionNumber ++ " is not supported"⟩ := by
  simp [convert, h1, h2]

/-- The last element of an arithmetic point array of length `n ≥ 1`. -/
theorem map_range_getLast (n : Nat) (hn : 1 ≤ n) (f : Nat → ℚ) :
    ((List.range n).map f).getLast? = some (f (n - 1)) := by
  obtain ⟨m, rfl⟩ : ∃ m, n = m + 1 := ⟨n - 1, by omega⟩
  rw [List.getLast?_map, List.range_succ, List.getLast?_concat]
  simp

/-- `_is_circular` on an arithmetic point array `k ↦ k * a * d + b` of
length `n ≥ 2` tests `n * (a * d)` against the modulus. -/
theorem is_circular_points (n : Nat) (hn : 2 ≤ n) (a d b : ℚ) :
    _is_circular ((List.range n).map (fun k : ℕ => (k : ℚ) * a * d + b)) 360 =
      decide (rmod ((n : ℚ) * (a * d)) 360 ≤ _CIRCULAR_TOLERANCE ∨
              360 - rmod ((n : ℚ) * (a * d)) 360 ≤ _CIRCULAR_TOLERANCE) := by
  set f : Nat → ℚ := fun k : ℕ => (k : ℚ) * a * d + b with hf
  obtain ⟨m, rfl⟩ : ∃ m, n = m + 2 := ⟨n - 2, by omega⟩
  have hr : List.range (m + 2) = 0 :: 1 :: (List.range m).map (fun i => i + 2) := by
    rw [List.range_succ_eq_map, List.range_succ_eq_map, List.map_cons, List.map_map]
    rfl
  have hmap : (List.range (m + 2)).map f =
      f 0 :: f 1 :: ((List.range m).map (fun i => i + 2)).map f := by
    rw [hr, List.map_cons, List.map_cons]
  have hlast : (f 1 :: ((List.range m).map (fun i => i + 2)).map f).getLastD 0 = f (m + 1) := by
    have h1 : ((List.range (m + 2)).map f).getLast? = some (f (m + 1)) := by
      simpa using map_range_getLast (m + 2) (by omega) f
    rw [hmap, List.getLast?_cons_cons] at h1
    rw [List.getLastD_eq_getLast?, h1, Option.getD_some]
  rw [hmap, _is_circular]
  simp only [hlast]
  have harg : f (m + 1) + (f 1 - f 0) - f 0 = ((m + 2 : Nat) : ℚ) * (a * d) := by
    rw [hf]
    push_cast
    ring
  rw [harg]

/-- Indexing into an arithmetic point array. -/
theorem map_range_getD (n k : Nat) (hk : k < n) (f : ℕ → ℚ) :
    ((List.range n).map f).getD k 0 = f k := by
  rw [List.getD_eq_getElem?_getD, List.getElem?_map f (List.range n) k,
    List.getElem?_range hk]
  rfl

/-- `with_centre` touches only the attributes field. -/
theorem with_centre_dim (md : ConversionMetadata) (code : String) :
    (with_centre md code).dim_coords_and_dims = md.dim_coords_and_dims := by
  rcases h : _CENTRES.lookup code with _ | v <;> simp [with_centre, h]

/-- A successful run of the GRIB1 section dispatcher leaves the attributes
mapping unchanged. -/
theorem gds_grib1_preserves_attributes (sec : GridSection1) (md md' : ConversionMetadata)
    (h : grid_definition_section_grib1 sec md = Except.ok md') :
    md'.attributes = md.attributes := by
  by_cases h0 : sec.dataRepresentationType = 0
  · rw [gds_grib1_type0 _ _ h0] at h
    obtain ⟨-, -, rfl⟩ := gdt0_inv _ _ _ h
    rfl
  · rw [gds_grib1_other _ _ h0] at h
    exact absurd h (by simp)

/-- `grib2_convert` is the centre lookup followed by the template dispatch. -/
theorem grib2_convert_eq (field : Message) (md : ConversionMetadata) :
    grib2_convert field md =
      (if field.section3.gridDefinitionTemplateNumber == 0 then
        grid_definition_template_0_grib2 field.section3 (with_centre md field.section1.centre)
      else
        Except.error ⟨"Grid definition template " ++
          toString field.section3.gridDefinitionTemplateNumber ++ " is not supported"⟩) := by
  rw [grib2_convert, with_centre]

/-! ### The claims -/

/-- C1: for every message, `convert` delegates edition 1 to `grib1_convert`
and edition 2 to `grib2_convert`; for any other edition number it fails with
a `TranslationError` whose message names the offending edition number, and
no (partial) metadata is returned. -/
theorem convert_edition_dispatch (field : Message) :
    (field.section0.editionNumber = 1 → convert field = grib1_convert field initial_metadata) ∧
    (field.section0.editionNumber = 2 → convert field = grib2_convert field initial_metadata) ∧
    (field.section0.editionNumber ≠ 1 → field.section0.editionNumber ≠ 2 →
      convert field = Except.error
        ⟨"GRIB edition " ++ toString field.section0.editionNumber ++ " is not supported"⟩) :=
  ⟨convert_e1 field, convert_e2 field, convert_other field⟩

/-- C1 witness: an edition-3 message fails with the error naming "3". -/
theorem convert_edition_dispatch_witness :
    msg_edition3.section0.editionNumber ≠ 1 ∧ msg_edition3.section0.editionNumber ≠ 2 ∧
    convert msg_edition3 = Except.error ⟨"GRIB edition 3 is not supported"⟩ :=
  ⟨by decide, by decide,
    (convert_edition_dispatch msg_edition3).2.2 (by decide) (by decide)⟩

/-- C3: for every flags value with bit 0x10 set, `scanning_mode` fails with
the alternative-row-scanning `TranslationError`; with bit 0x10 clear it
returns the named boolean tuple (i_negative = bit 0x80, j_positive = bit
0x40, j_consecutive = bit 0x20, i_alternative = false) and does not fail;
all bits outside 0xF0 are ignored. -/
theorem scanning_mode_bit_contract (flags : Nat) :
    (flags &&& 0x10 ≠ 0 → scanning_mode flags = Except.error
      ⟨"Grid definition section 3 contains unsupported alternative row scanning mode"⟩) ∧
    (flags &&& 0x10 = 0 → scanning_mode flags =
      Except.ok ⟨flags &&& 0x80 != 0, flags &&& 0x40 != 0, flags &&& 0x20 != 0, false⟩) ∧
    scanning_mode flags = scanning_mode (flags &&& 0xF0) := by
  have h80 : flags &&& 0xF0 &&& 0x80 = flags &&& 0x80 := by
    rw [Nat.and_assoc]
    exact congrArg (fun m => flags &&& m) (by decide)
  have h40 : flags &&& 0xF0 &&& 0x40 = flags &&& 0x40 := by
    rw [Nat.and_assoc]
    exact congrArg (fun m => flags &&& m) (by decide)
  have h20 : flags &&& 0xF0 &&& 0x20 = flags &&& 0x20 := by
    rw [Nat.and_assoc]
    exact congrArg (fun m => flags &&& m) (by decide)
  have h10 : flags &&& 0xF0 &&& 0x10 = flags &&& 0x10 := by
    rw [Nat.and_assoc]
    exact congrArg (fun m => flags &&& m) (by decide)
  refine ⟨scanning_mode_alt flags, scanning_mode_ok flags, ?_⟩
  by_cases ha : flags &&& 0x10 = 0
  · rw [scanning_mode_ok _ ha, scanning_mode_ok _ (by rw [h10]; exact ha),
      h80, h40, h20]
  · rw [scanning_mode_alt _ ha, scanning_mode_alt _ (by rw [h10]; exact ha)]

/-- C3 witness: flags 0xD3 (alternative bit set) fail; flags 0xE3
(alternative bit clear, other documented bits set) decode. -/
theorem scanning_mode_bit_contract_witness :
    ((0xD3 : Nat) &&& 0x10 ≠ 0 ∧ scanning_mode 0xD3 = Except.error
      ⟨"Grid definition section 3 contains unsupported alternative row scanning mode"⟩) ∧
    ((0xE3 : Nat) &&& 0x10 = 0 ∧
      scanning_mode 0xE3 = Except.ok ⟨true, true, true, false⟩) :=
  ⟨⟨by decide, (scanning_mode_bit_contract 0xD3).1 (by decide)⟩,
   ⟨by decide, (scanning_mode_bit_contract 0xE3).2.1 (by decide)⟩⟩

/-- C5: a grid-definition section with the quasi-regular indicator set makes
the regular latitude-longitude builder fail with the quasi-regular
`TranslationError`; the failure propagates out of `convert` unchanged, so no
coordinates are ever delivered. -/
theorem quasi_regular_rejected :
    (∀ (sec : GridSection1) (md : ConversionMetadata), sec.PLPresent = true →
      grid_definition_template_0 sec md = Except.error
        ⟨"Grid definition section 2 contains unsupported quasi-regular grid"⟩) ∧
    (∀ field : Message, field.section0.editionNumber = 1 →
      field.section2.dataRepresentationType = 0 → field.section2.PLPresent = true →
      convert field = Except.error
        ⟨"Grid definition section 2 contains unsupported quasi-regular grid"⟩) := by
  refine ⟨fun sec md hq => gdt0_quasi sec md hq, fun field h1 h0 hq => ?_⟩
  rw [convert_e1 field h1, grib1_convert_eq, gds_grib1_type0 _ _ h0, gdt0_quasi _ _ hq]

/-- C5 witness: a quasi-regular edition-1 message is rejected by `convert`. -/
theorem quasi_regular_rejected_witness :
    msg_quasi.section2.PLPresent = true ∧
    convert msg_quasi = Except.error
      ⟨"Grid definition section 2 contains unsupported quasi-regular grid"⟩ :=
  ⟨by decide, quasi_regular_rejected.2 msg_quasi (by decide) (by decide) (by decide)⟩

/-- C8: contrary to the claim (and to the function's own docstring), the
source body of `resolution_flags` contains no return statement, so the
function returns `None` — never the named tuple — for every input. -/
theorem resolution_flags_no_return : ∀ flags : Nat, resolution_flags flags = none :=
  fun _ => rfl

/-- C9: in `grib1_convert`, a centre code present in the static table (only
"ecmf") adds the attribute entry mapping "centre" to the table's canonical
name; any other code leaves the attributes mapping without a "centre" key;
the lookup itself is total and never fails. -/
theorem centre_attribute_lookup (field : Message) (md md' : ConversionMetadata)
    (hattr : md.attributes = [])
    (h : grib1_convert field md = Except.ok md') :
    (field.section1.centre = "ecmf" →
      md'.attributes = [("centre", "European Centre for Medium Range Weather Forecasts")]) ∧
    (field.section1.centre ≠ "ecmf" → md'.attributes = []) := by
  rw [grib1_convert_eq] at h
  have hpres := gds_grib1_preserves_attributes _ _ _ h
  constructor
  · intro hc
    rw [hpres, hc]
    simp [with_centre, _CENTRES, hattr, List.lookup]
  · intro hc
    rw [hpres]
    have hb : (field.section1.centre == "ecmf") = false := beq_eq_false_iff_ne.mpr hc
    have hl : _CENTRES.lookup field.section1.centre = none := by
      simp [_CENTRES, List.lookup, hb]
    simp [with_centre, hl, hattr]

/-- C9 witness: the known code "ecmf" yields the canonical centre attribute;
the unknown code "kwbc" yields no centre attribute. -/
theorem centre_attribute_lookup_witness :
    msg_grib1.section1.centre = "ecmf" ∧
    (gdt0_result sec_basic (with_centre initial_metadata "ecmf")).attributes =
      [("centre", "European Centre for Medium Range Weather Forecasts")] ∧
    msg_unknown_centre.section1.centre ≠ "ecmf" ∧
    (gdt0_result sec_basic (with_centre initial_metadata "kwbc")).attributes = [] := by
  have h1 : grib1_convert msg_grib1 initial_metadata =
      Except.ok (gdt0_result sec_basic (with_centre initial_metadata "ecmf")) := by
    rw [grib1_convert_eq, gds_grib1_type0 _ _ (by decide)]
    exact gdt0_ok _ _ (by decide) (by decide)
  have h2 : grib1_convert msg_unknown_centre initial_metadata =
      Except.ok (gdt0_result sec_basic (with_centre initial_metadata "kwbc")) := by
    rw [grib1_convert_eq, gds_grib1_type0 _ _ (by decide)]
    exact gdt0_ok _ _ (by decide) (by decide)
  exact ⟨rfl, (centre_attribute_lookup msg_grib1 initial_metadata _ rfl h1).1 rfl,
    by decide, (centre_attribute_lookup msg_unknown_centre initial_metadata _ rfl h2).2 (by decide)⟩

/-- C6: whenever the regular latitude-longitude builder succeeds, latitude
receives dimension index 0 and longitude index 1 when the j_consecutive bit
(0x20) is clear, and the assignment is swapped when the bit is set. -/
theorem j_consecutive_dim_assignment (sec : GridSection1) (md md' : ConversionMetadata)
    (h : grid_definition_template_0 sec md = Except.ok md') :
    ∃ yc xc, md'.dim_coords_and_dims =
        md.dim_coords_and_dims ++
          [(yc, if sec.scanningMode &&& 0x20 != 0 then 1 else 0),
           (xc, if sec.scanningMode &&& 0x20 != 0 then 0 else 1)] ∧
      yc.standard_name = "latitude" ∧ xc.standard_name = "longitude" := by
  obtain ⟨-, -, rfl⟩ := gdt0_inv _ _ _ h
  exact ⟨y_coord_grib1 sec, x_coord_grib1 sec, rfl, rfl, rfl⟩

/-- C6 witness: with bit 0x20 set, latitude takes index 1 and longitude 0. -/
theorem j_consecutive_dim_assignment_witness :
    sec_jcons.scanningMode &&& 0x20 ≠ 0 ∧
    (∃ yc xc, (gdt0_result sec_jcons initial_metadata).dim_coords_and_dims =
        initial_metadata.dim_coords_and_dims ++ [(yc, 1), (xc, 0)] ∧
      yc.standard_name = "latitude" ∧ xc.standard_name = "longitude") :=
  ⟨by decide,
    j_consecutive_dim_assignment sec_jcons initial_metadata _
      (gdt0_ok _ _ (by decide) (by decide))⟩

/-- C10: whenever the builder succeeds, the latitude entry is appended to
`dim_coords_and_dims` immediately before the longitude entry, whatever the
scanning-mode flags; only the carried dimension indices may swap. -/
theorem latitude_entry_precedes_longitude (sec : GridSection1) (md md' : ConversionMetadata)
    (h : grid_definition_template_0 sec md = Except.ok md') :
    ∃ yc yd xc xd, md'.dim_coords_and_dims =
        md.dim_coords_and_dims ++ [(yc, yd), (xc, xd)] ∧
      yc.standard_name = "latitude" ∧ xc.standard_name = "longitude" := by
  obtain ⟨-, -, rfl⟩ := gdt0_inv _ _ _ h
  exact ⟨y_coord_grib1 sec, y_dim_grib1 sec, x_coord_grib1 sec, x_dim_grib1 sec, rfl, rfl, rfl⟩

/-- C10 witness: the order holds with all of 0x80/0x40/0x20 set. -/
theorem latitude_entry_precedes_longitude_witness :
    sec_allbits.scanningMode &&& 0x20 ≠ 0 ∧
    (∃ yc yd xc xd, (gdt0_result sec_allbits initial_metadata).dim_coords_and_dims =
        initial_metadata.dim_coords_and_dims ++ [(yc, yd), (xc, xd)] ∧
      yc.standard_name = "latitude" ∧ xc.standard_name = "longitude") :=
  ⟨by decide,
    latitude_entry_precedes_longitude sec_allbits initial_metadata _
      (gdt0_ok _ _ (by decide) (by decide))⟩

/-- C2: whenever the builder succeeds, the k-th longitude point equals
`k * iDirectionIncrement * scale * direction + longitudeOfFirstGridPoint *
scale` for `k` below `Ni`, with direction −1 iff the i_negative bit (0x80)
is set, and the latitude points are computed symmetrically over `Nj` with
direction +1 iff the j_positive bit (0x40) is set, where scale is the fixed
GRIB1 conversion factor. -/
theorem regular_ll_point_formula (sec : GridSection1) (md md' : ConversionMetadata)
    (h : grid_definition_template_0 sec md = Except.ok md') :
    ∃ yc yd xc xd,
      md'.dim_coords_and_dims = md.dim_coords_and_dims ++ [(yc, yd), (xc, xd)] ∧
      yc.standard_name = "latitude" ∧ xc.standard_name = "longitude" ∧
      (∀ k : ℕ, k < sec.Ni → xc.points.getD k 0 =
        (k : ℚ) * (sec.iDirectionIncrement : ℚ) * _GRID_ACCURACY_IN_DEGREES_GRIB1 *
          (if sec.scanningMode &&& 0x80 != 0 then -1 else 1) +
        (sec.longitudeOfFirstGridPoint : ℚ) * _GRID_ACCURACY_IN_DEGREES_GRIB1) ∧
      (∀ k : ℕ, k < sec.Nj → yc.points.getD k 0 =
        (k : ℚ) * (sec.jDirectionIncrement : ℚ) * _GRID_ACCURACY_IN_DEGREES_GRIB1 *
          (if sec.scanningMode &&& 0x40 != 0 then 1 else -1) +
        (sec.latitudeOfFirstGridPoint : ℚ) * _GRID_ACCURACY_IN_DEGREES_GRIB1) := by
  obtain ⟨-, -, rfl⟩ := gdt0_inv _ _ _ h
  refine ⟨y_coord_grib1 sec, y_dim_grib1 sec, x_coord_grib1 sec, x_dim_grib1 sec,
    rfl, rfl, rfl, ?_, ?_⟩
  · intro k hk
    show (x_points_grib1 sec).getD k 0 = _
    rw [x_points_grib1, map_range_getD sec.Ni k hk]
    ring
  · intro k hk
    show (y_points_grib1 sec).getD k 0 = _
    rw [y_points_grib1, map_range_getD sec.Nj k hk]
    ring

/-- C2 witness: the design document example — increment 1°, offset 0,
`Ni = 4`, i_negative set — yields longitude points [0, −1, −2, −3]. -/
theorem regular_ll_point_formula_witness :
    (∃ yc yd xc xd,
      (gdt0_result sec_ineg initial_metadata).dim_coords_and_dims =
        initial_metadata.dim_coords_and_dims ++ [(yc, yd), (xc, xd)] ∧
      yc.standard_name = "latitude" ∧ xc.standard_name = "longitude" ∧
      (∀ k : ℕ, k < sec_ineg.Ni → xc.points.getD k 0 =
        (k : ℚ) * (sec_ineg.iDirectionIncrement : ℚ) * _GRID_ACCURACY_IN_DEGREES_GRIB1 *
          (if sec_ineg.scanningMode &&& 0x80 != 0 then -1 else 1) +
        (sec_ineg.longitudeOfFirstGridPoint : ℚ) * _GRID_ACCURACY_IN_DEGREES_GRIB1) ∧
      (∀ k : ℕ, k < sec_ineg.Nj → yc.points.getD k 0 =
        (k : ℚ) * (sec_ineg.jDirectionIncrement : ℚ) * _GRID_ACCURACY_IN_DEGREES_GRIB1 *
          (if sec_ineg.scanningMode &&& 0x40 != 0 then 1 else -1) +
        (sec_ineg.latitudeOfFirstGridPoint : ℚ) * _GRID_ACCURACY_IN_DEGREES_GRIB1)) ∧
    x_points_grib1 sec_ineg = [0, -1, -2, -3] := by
  constructor
  · exact regular_ll_point_formula sec_ineg initial_metadata _
      (gdt0_ok _ _ (by decide) (by decide))
  · norm_num [x_points_grib1, sec_ineg, _GRID_ACCURACY_IN_DEGREES_GRIB1, List.range_succ]

/-- C4: every message accepted by `convert` yields a metadata record whose
`dim_coords_and_dims` holds exactly two entries — a latitude coordinate with
`Nj` points and a longitude coordinate with `Ni` points, read from the
edition's grid section — and the two coordinates carry one shared coordinate
system, the spherical Earth of radius 6371229 m. -/
theorem convert_two_dim_coords (field : Message) (md : ConversionMetadata)
    (h : convert field = Except.ok md) :
    ∃ yc yd xc xd,
      md.dim_coords_and_dims = [(yc, yd), (xc, xd)] ∧
      yc.standard_name = "latitude" ∧ xc.standard_name = "longitude" ∧
      yc.points.length =
        (if field.section0.editionNumber = 1 then field.section2.Nj else field.section3.Nj) ∧
      xc.points.length =
        (if field.section0.editionNumber = 1 then field.section2.Ni else field.section3.Ni) ∧
      yc.coord_system = xc.coord_system ∧ yc.coord_system = ⟨6371229⟩ := by
  by_cases h1 : field.section0.editionNumber = 1
  · rw [convert_e1 field h1, grib1_convert_eq] at h
    by_cases h0 : field.section2.dataRepresentationType = 0
    · rw [gds_grib1_type0 _ _ h0] at h
      obtain ⟨-, -, rfl⟩ := gdt0_inv _ _ _ h
      refine ⟨y_coord_grib1 field.section2, y_dim_grib1 field.section2,
        x_coord_grib1 field.section2, x_dim_grib1 field.section2, ?_, rfl, rfl, ?_, ?_, rfl, rfl⟩
      · show (with_centre initial_metadata field.section1.centre).dim_coords_and_dims ++ _ = _
        rw [with_centre_dim]
        rfl
      · show (y_points_grib1 field.section2).length = _
        simp [y_points_grib1, h1]
      · show (x_points_grib1 field.section2).length = _
        simp [x_points_grib1, h1]
    · rw [gds_grib1_other _ _ h0] at h
      exact absurd h (by simp)
  · by_cases h2 : field.section0.editionNumber = 2
    · rw [convert_e2 field h2, grib2_convert_eq] at h
      by_cases h0 : field.section3.gridDefinitionTemplateNumber = 0
      · rw [if_pos (by simpa using h0)] at h
        obtain ⟨-, -, rfl⟩ := gdt0_grib2_inv _ _ _ h
        refine ⟨y_coord_grib2 field.section3, y_dim_grib2 field.section3,
          x_coord_grib2 field.section3, x_dim_grib2 field.section3, ?_, rfl, rfl, ?_, ?_, rfl, rfl⟩
        · show (with_centre initial_metadata field.section1.centre).dim_coords_and_dims ++ _ = _
          rw [with_centre_dim]
          rfl
        · show (y_points_grib2 field.section3).length = _
          simp [y_points_grib2, h1]
        · show (x_points_grib2 field.section3).length = _
          simp [x_points_grib2, h1]
      · rw [if_neg (by simpa using h0)] at h
        exact absurd h (by simp)
    · rw [convert_other field h1 h2] at h
      exact absurd h (by simp)

/-- C4 witness: a 2 × 3 edition-1 message produces exactly the two
coordinates with the shared spherical coordinate system. -/
theorem convert_two_dim_coords_witness :
    ∃ yc yd xc xd,
      (gdt0_result sec_basic (with_centre initial_metadata "ecmf")).dim_coords_and_dims =
        [(yc, yd), (xc, xd)] ∧
      yc.standard_name = "latitude" ∧ xc.standard_name = "longitude" ∧
      yc.points.length =
        (if msg_grib1.section0.editionNumber = 1 then msg_grib1.section2.Nj
         else msg_grib1.section3.Nj) ∧
      xc.points.length =
        (if msg_grib1.section0.editionNumber = 1 then msg_grib1.section2.Ni
         else msg_grib1.section3.Ni) ∧
      yc.coord_system = xc.coord_system ∧ yc.coord_system = ⟨6371229⟩ := by
  have h : convert msg_grib1 =
      Except.ok (gdt0_result sec_basic (with_centre initial_metadata "ecmf")) := by
    rw [convert_e1 msg_grib1 rfl, grib1_convert_eq, gds_grib1_type0 _ _ (by decide)]
    exact gdt0_ok _ _ (by decide) (by decide)
  exact convert_two_dim_coords msg_grib1 _ h

/-- C7: whenever the builder succeeds on a section with at least two
longitude points, the longitude coordinate (the last appended entry) is
marked circular iff adding one more increment (in the scanning direction)
past the last longitude point lands, within the fixed tolerance, on the
first point plus 360° modulo 360. -/
theorem longitude_circular_iff (sec : GridSection1) (md md' : ConversionMetadata)
    (h : grid_definition_template_0 sec md = Except.ok md') (hn : 2 ≤ sec.Ni) :
    ∃ xc xd, md'.dim_coords_and_dims.getLast? = some (xc, xd) ∧
      xc.standard_name = "longitude" ∧
      (xc.circular = true ↔
        lands_on_start
          ((sec.longitudeOfFirstGridPoint : ℚ) * _GRID_ACCURACY_IN_DEGREES_GRIB1)
          (((sec.Ni : ℚ) - 1) *
              ((sec.iDirectionIncrement : ℚ) * _GRID_ACCURACY_IN_DEGREES_GRIB1 *
                (if sec.scanningMode &&& 0x80 != 0 then -1 else 1)) +
            (sec.longitudeOfFirstGridPoint : ℚ) * _GRID_ACCURACY_IN_DEGREES_GRIB1)
          ((sec.iDirectionIncrement : ℚ) * _GRID_ACCURACY_IN_DEGREES_GRIB1 *
            (if sec.scanningMode &&& 0x80 != 0 then -1 else 1))) := by
  obtain ⟨-, -, rfl⟩ := gdt0_inv _ _ _ h
  refine ⟨x_coord_grib1 sec, x_dim_grib1 sec, ?_, rfl, ?_⟩
  · show (md.dim_coords_and_dims ++
      [(y_coord_grib1 sec, y_dim_grib1 sec), (x_coord_grib1 sec, x_dim_grib1 sec)]).getLast? = _
    rw [show md.dim_coords_and_dims ++
        [(y_coord_grib1 sec, y_dim_grib1 sec), (x_coord_grib1 sec, x_dim_grib1 sec)] =
        (md.dim_coords_and_dims ++ [(y_coord_grib1 sec, y_dim_grib1 sec)]) ++
          [(x_coord_grib1 sec, x_dim_grib1 sec)] from by simp]
    exact List.getLast?_concat _
  · show _is_circular (x_points_grib1 sec) 360 = true ↔ _
    rw [x_points_grib1, is_circular_points sec.Ni hn]
    rw [decide_eq_true_eq, lands_on_start]
    rw [show (((sec.Ni : ℚ) - 1) *
          ((sec.iDirectionIncrement : ℚ) * _GRID_ACCURACY_IN_DEGREES_GRIB1 *
            (if sec.scanningMode &&& 0x80 != 0 then -1 else 1)) +
          (sec.longitudeOfFirstGridPoint : ℚ) * _GRID_ACCURACY_IN_DEGREES_GRIB1) +
        ((sec.iDirectionIncrement : ℚ) * _GRID_ACCURACY_IN_DEGREES_GRIB1 *
          (if sec.scanningMode &&& 0x80 != 0 then -1 else 1)) -
        (sec.longitudeOfFirstGridPoint : ℚ) * _GRID_ACCURACY_IN_DEGREES_GRIB1 =
        (sec.Ni : ℚ) *
          ((sec.iDirectionIncrement : ℚ) * _GRID_ACCURACY_IN_DEGREES_GRIB1 *
            (if sec.scanningMode &&& 0x80 != 0 then -1 else 1)) from by ring]

/-- C7 witness: `Ni = 360` with 1° increments starting at 0° — the
criterion instance holds and the longitude coordinate is marked circular. -/
theorem longitude_circular_iff_witness :
    (∃ xc xd,
      (gdt0_result sec_360 initial_metadata).dim_coords_and_dims.getLast? = some (xc, xd) ∧
      xc.standard_name = "longitude" ∧
      (xc.circular = true ↔
        lands_on_start
          ((sec_360.longitudeOfFirstGridPoint : ℚ) * _GRID_ACCURACY_IN_DEGREES_GRIB1)
          (((sec_360.Ni : ℚ) - 1) *
              ((sec_360.iDirectionIncrement : ℚ) * _GRID_ACCURACY_IN_DEGREES_GRIB1 *
                (if sec_360.scanningMode &&& 0x80 != 0 then -1 else 1)) +
            (sec_360.longitudeOfFirstGridPoint : ℚ) * _GRID_ACCURACY_IN_DEGREES_GRIB1)
          ((sec_360.iDirectionIncrement : ℚ) * _GRID_ACCURACY_IN_DEGREES_GRIB1 *
            (if sec_360.scanningMode &&& 0x80 != 0 then -1 else 1)))) ∧
    (x_coord_grib1 sec_360).circular = true := by
  constructor
  · exact longitude_circular_iff sec_360 initial_metadata _
      (gdt0_ok _ _ (by decide) (by decide)) (by decide)
  · show _is_circular (x_points_grib1 sec_360) 360 = true
    rw [x_points_grib1, is_circular_points sec_360.Ni (by decide), decide_eq_true_eq]
    left
    have hz : rmod ((sec_360.Ni : ℚ) *
        ((sec_360.iDirectionIncrement : ℚ) * _GRID_ACCURACY_IN_DEGREES_GRIB1 *
          (if sec_360.scanningMode &&& 0x80 != 0 then (-1 : ℚ) else 1))) 360 = 0 := by
      norm_num [sec_360, rmod, _GRID_ACCURACY_IN_DEGREES_GRIB1]
    rw [hz, _CIRCULAR_TOLERANCE]
    norm_num
